/-
Verification of the voice-strix-halo streaming gateway handlers.

Shallow embedding of the three Wyoming-protocol event handlers:
  * `Kokoro`    — TTS handler (kokoro/kokoro_handler.py): inline chunk
                  reframing loop and the synthesize event sequence.
  * `Moonshine` — STT handler (moonshine/moonshine_handler.py): audio
                  accumulation, int16 decode, downmix, conditional
                  resampling, transcription with local error recovery.
  * `Voxtral`   — STT handler (voxtral/voxtral_handler.py): audio
                  accumulation, int16 decode, resampling inside the
                  synchronous transcription body.
  * `ModelCache` — the lazily-initialized global model cache shared by
                  the STT handlers (`get_model` / `get_vllm_model`).

Bytes are modelled as `List Nat` (each entry one byte value); audio
samples as `Int` (int16 range) and, after the float32 conversion
`x / 32768.0`, as exact rationals `ℚ`.  The rational model is exact for
every arithmetic fact proved below: int16/32768 and the 2-channel mean
of two such values are exactly representable in binary floating point.
Backend capabilities (ASR transcribe, TTS synthesize streams, the
resampler library) are parameters of the handler configuration, with
`Except Unit` modelling a Python exception.
-/
import Mathlib

/-- Outbound Wyoming protocol events written by the handlers. -/
inductive OutEvent where
  | info
  | audioStart (rate width channels : Nat)
  | audioChunk (audio : List Nat) (rate width channels : Nat)
  | audioStop
  | transcript (text : String)
  deriving DecidableEq, Repr

namespace Kokoro

/-- Server-side configuration of `KokoroEventHandler.__init__`: the voice
and speed passed on the command line (the API url and timeout do not
affect the event sequence). -/
structure Config where
  voice : String
  speed : ℚ
  deriving DecidableEq, Repr

/-- Fields of a Wyoming `Synthesize` event as read by the handler. -/
structure SynthRequest where
  text : String
  voice : String
  speed : ℚ
  deriving DecidableEq, Repr

/-- The JSON payload the handler POSTs to `{api_url}/audio/speech`
(kokoro_handler.py lines 52-59). -/
structure Payload where
  model : String
  voice : String
  input : String
  responseFormat : String
  speed : ℚ
  stream : Bool
  deriving DecidableEq, Repr

/-- kokoro_handler.py lines 52-59: the payload uses `self.voice` and
`self.speed` from the server config and `synthesize.text` from the
request; the request's own voice/speed fields are never read. -/
def buildPayload (cfg : Config) (req : SynthRequest) : Payload :=
  { model := "kokoro"
    voice := cfg.voice
    input := req.text
    responseFormat := "pcm"
    speed := cfg.speed
    stream := true }

/-- The inner `while len(buffer) >= 2` loop of kokoro_handler.py lines
96-115: repeatedly cut `min(len(buffer)//2, 1024)` samples (2 bytes per
sample) off the front of the buffer, emitting each cut as one chunk.
Returns the emitted chunks (each at most 1024 samples = 2048 bytes) and
the remaining buffer (at most one dangling byte). -/
def drainBuffer (buf : List Nat) : List (List Nat) × List Nat :=
  if h : 2 ≤ buf.length then
    let d := min (buf.length / 2) 1024 * 2
    let rest := drainBuffer (buf.drop d)
    (buf.take d :: rest.1, rest.2)
  else
    ([], buf)
  termination_by buf.length
  decreasing_by
    simp only [List.length_drop]
    omega

/-- kokoro_handler.py lines 86-115: each arriving response fragment is
appended to the carry-over buffer (`buffer += chunk`) and the buffer is
drained of complete samples.  Returns all chunks emitted and the final
buffer contents. -/
def processFragments (frags : List (List Nat)) : List (List Nat) × List Nat :=
  frags.foldl
    (fun acc frag =>
      let step := drainBuffer (acc.2 ++ frag)
      (acc.1 ++ step.1, step.2))
    ([], [])

/-- kokoro_handler.py lines 117-129: after the stream ends, emit any
remaining buffered data of at least one whole sample as a final chunk
(`remaining_samples = len(buffer)//2` whole samples). -/
def flushTail (buf : List Nat) : List (List Nat) :=
  if 2 ≤ buf.length then [buf.take (buf.length / 2 * 2)] else []

/-- Outbound event sequence of the `Synthesize` branch of
`KokoroEventHandler.handle_event` (kokoro_handler.py lines 45-157),
given the fragment sequence the streaming HTTP response yields and
whether the response raises after those fragments.  `AudioStart` is
written immediately (lines 69-76) before the HTTP request is made; on
any exception the handler skips the rest of the stream and writes a
fresh `AudioStart` followed by `AudioStop` (lines 148-157, "send empty
audio to indicate failure"); otherwise it flushes the tail and writes
`AudioStop` (lines 117-145). -/
def synthesizeEvents (frags : List (List Nat)) (raises : Bool) : List OutEvent :=
  let streamed := processFragments frags
  OutEvent.audioStart 24000 2 1 ::
    streamed.1.map (fun c => OutEvent.audioChunk c 24000 2 1) ++
      (if raises then
        [OutEvent.audioStart 24000 2 1, OutEvent.audioStop]
      else
        (flushTail streamed.2).map (fun c => OutEvent.audioChunk c 24000 2 1) ++
          [OutEvent.audioStop])

/-- The full `Synthesize` branch: build the API payload from config and
request, obtain the backend's streamed fragments (and whether it raises
mid-stream) for that payload, and emit the event sequence. -/
def handleSynthesize (cfg : Config) (backend : Payload → List (List Nat) × Bool)
    (req : SynthRequest) : List OutEvent :=
  let p := buildPayload cfg req
  let r := backend p
  synthesizeEvents r.1 r.2

end Kokoro

/-- Inbound Wyoming protocol events as dispatched by the STT handlers'
`handle_event`. -/
inductive InEvent where
  | describe
  | transcribeRequest
  | audioChunk (audio : List Nat) (rate width channels : Nat)
  | audioStop
  deriving DecidableEq, Repr

/-- Whether an inbound event is an `AudioChunk`. -/
def InEvent.isChunk : InEvent → Bool
  | .audioChunk _ _ _ _ => true
  | _ => false

/-- Little-endian int16 decode of one byte pair, as performed by
`np.frombuffer(..., dtype=np.int16)` on a little-endian host. -/
def int16OfBytes (lo hi : Nat) : Int :=
  let v := lo % 256 + 256 * (hi % 256)
  if v < 32768 then (v : Int) else (v : Int) - 65536

/-- Model of `np.frombuffer(buffer, dtype=np.int16)`: decode the byte buffer two
bytes at a time; a buffer whose length is not a multiple of 2 raises
`ValueError` (numpy refuses a buffer that is not a multiple of the
element size), modelled as `Except.error`. -/
def toInt16Samples : List Nat → Except Unit (List Int)
  | [] => .ok []
  | [_] => .error ()
  | lo :: hi :: rest => (toInt16Samples rest).map (int16OfBytes lo hi :: ·)

/-- Model of `audio_data.astype(np.float32) / 32768.0`, modelled exactly in ℚ
(exact for int16 inputs: a 15-bit magnitude divided by a power of two is
exactly representable in float32). -/
def toFloatSamples (ints : List Int) : List ℚ :=
  ints.map (fun (i : Int) => (i : ℚ) / 32768)

/-- One row-mean pass of `reshape(-1, c).mean(axis=1)`: cut the sample
list into rows of `c` and take the mean of each row (mean modelled
exactly in ℚ).  `fuel` bounds the recursion; `l.length` is always
enough since each step drops `c ≥ 1` elements. -/
def meanRows (c : Nat) : Nat → List ℚ → List ℚ
  | 0, _ => []
  | _, [] => []
  | fuel + 1, l => ((l.take c).sum / (c : ℚ)) :: meanRows c fuel (l.drop c)

/-- Model of `audio_float.reshape(-1, channels).mean(axis=1)`
(moonshine_handler.py line 105): numpy's reshape raises `ValueError`
when `channels` does not divide the number of samples; otherwise each
group of `channels` interleaved samples is averaged into one mono
sample. -/
def downmixQ (samples : List ℚ) (channels : Nat) : Except Unit (List ℚ) :=
  if samples.length % channels = 0 then
    .ok (meanRows channels samples.length samples)
  else
    .error ()

namespace Moonshine

/-- Configuration and collaborators of `MoonshineEventHandler`: whether
`import librosa` succeeds, the resampler (librosa.resample, opaque), and
the ASR backend (`model.generate` + tokenizer decode through
`get_model`), which may raise. -/
structure Config where
  librosaAvailable : Bool
  resampleFn : List ℚ → Nat → List ℚ
  backend : List ℚ → Except Unit String

/-- Mutable per-connection state of `MoonshineEventHandler.__init__`
lines 59-63: the accumulated audio buffer and the recorded audio
format. -/
structure State where
  buffer : List Nat
  rate : Nat
  width : Nat
  channels : Nat
  deriving Repr

/-- Fresh handler state (`__init__`: empty buffer, 16000 Hz, 16-bit,
mono). -/
def initState : State := ⟨[], 16000, 2, 1⟩

/-- The resampling step of moonshine_handler.py lines 107-121: resample
only when the recorded rate differs from 16000; if `import librosa`
raises `ImportError`, log a warning and continue with the samples
unchanged. -/
def resampleStep (cfg : Config) (rate : Nat) (s : List ℚ) : List ℚ :=
  if rate ≠ 16000 then
    if cfg.librosaAvailable then cfg.resampleFn s rate else s
  else
    s

/-- moonshine_handler.py lines 99-105: int16 decode of the accumulated
buffer, float conversion, then stereo-to-mono downmix when the recorded
channel count exceeds 1.  Any numpy `ValueError` propagates to the
outer `except` of the `AudioStop` branch. -/
def monoStage (st : State) : Except Unit (List ℚ) := do
  let ints ← toInt16Samples st.buffer
  let floats := toFloatSamples ints
  if st.channels > 1 then downmixQ floats st.channels else pure floats

/-- The full audio preparation pipeline of the `AudioStop` branch
(moonshine_handler.py lines 99-121): decode, downmix, then conditional
resample. -/
def pipeline (cfg : Config) (st : State) : Except Unit (List ℚ) :=
  (monoStage st).map (resampleStep cfg st.rate)

/-- Model of `MoonshineEventHandler._transcribe_sync` (lines 146-157): invoke the
backend; any exception is caught locally and turned into `""`. -/
def transcribeSync (cfg : Config) (samples : List ℚ) : String :=
  match cfg.backend samples with
  | .ok t => t
  | .error _ => ""

/-- The `AudioStop` branch (moonshine_handler.py lines 95-142): prepare
the audio, transcribe off the event loop, emit one `Transcript`; any
exception in the pipeline is caught by the outer `except` and turned
into `Transcript("")`. -/
def stopEvents (cfg : Config) (st : State) : List OutEvent :=
  match pipeline cfg st with
  | .ok samples => [OutEvent.transcript (transcribeSync cfg samples)]
  | .error _ => [OutEvent.transcript ""]

/-- Model of `MoonshineEventHandler.handle_event`: returns the new state, the
events written, and the boolean the coroutine returns (always `True`:
the connection is never closed by the handler).  `Transcribe` resets
the buffer and the sample rate (lines 72-76); `AudioChunk` records the
chunk's format only when the buffer is empty, then appends the payload
(lines 78-93); `AudioStop` runs the transcription path (lines
95-142). -/
def handleEvent (cfg : Config) (st : State) : InEvent → State × List OutEvent × Bool
  | .describe => (st, [OutEvent.info], true)
  | .transcribeRequest => ({ st with buffer := [], rate := 16000 }, [], true)
  | .audioChunk a r w c =>
    let st' := if st.buffer = [] then { st with rate := r, width := w, channels := c } else st
    ({ st' with buffer := st'.buffer ++ a }, [], true)
  | .audioStop => (st, stopEvents cfg st, true)

/-- Run a session: fold `handle_event` over an in-order event list,
collecting all written events. -/
def runSession (cfg : Config) (st : State) : List InEvent → State × List OutEvent
  | [] => (st, [])
  | e :: es =>
    let step := handleEvent cfg st e
    let rest := runSession cfg step.1 es
    (rest.1, step.2.1 ++ rest.2)

end Moonshine

namespace Voxtral

/-- Configuration and collaborators of `VoxtralEventHandler`: whether
the model loads (`get_vllm_model`), whether `import librosa` succeeds,
the resampler, and the vLLM generate call, which may raise. -/
structure Config where
  modelAvailable : Bool
  librosaAvailable : Bool
  resampleFn : List ℚ → Nat → List ℚ
  backend : List ℚ → Except Unit String

/-- Model of `VoxtralEventHandler._transcribe_sync` (voxtral_handler.py lines
164-208): the whole body — including `import librosa` and the
conditional resample — sits inside one `try`; any exception (a missing
librosa included, even when no resampling is needed) yields `""`. -/
def transcribeSync (cfg : Config) (samples : List ℚ) (rate : Nat) : String :=
  if cfg.librosaAvailable then
    let s := if rate ≠ 16000 then cfg.resampleFn samples rate else samples
    match cfg.backend s with
    | .ok t => t
    | .error _ => ""
  else
    ""

/-- The `AudioStop` branch (voxtral_handler.py lines 118-160): lazy
model load, int16 decode, float conversion (no downmix in this
handler), transcription; any exception before `_transcribe_sync` is
caught by the outer `except` and turned into `Transcript("")`. -/
def stopEvents (cfg : Config) (st : Moonshine.State) : List OutEvent :=
  if cfg.modelAvailable then
    match toInt16Samples st.buffer with
    | .ok ints => [OutEvent.transcript (transcribeSync cfg (toFloatSamples ints) st.rate)]
    | .error _ => [OutEvent.transcript ""]
  else
    [OutEvent.transcript ""]

/-- Model of `VoxtralEventHandler.handle_event` (lines 83-162): same
state-machine shape as the Moonshine handler (reset on `Transcribe`,
record format on first buffered chunk, accumulate, transcribe on
`AudioStop`), always returning `True`. -/
def handleEvent (cfg : Config) (st : Moonshine.State) :
    InEvent → Moonshine.State × List OutEvent × Bool
  | .describe => (st, [OutEvent.info], true)
  | .transcribeRequest => ({ st with buffer := [], rate := 16000 }, [], true)
  | .audioChunk a r w c =>
    let st' := if st.buffer = [] then { st with rate := r, width := w, channels := c } else st
    ({ st' with buffer := st'.buffer ++ a }, [], true)
  | .audioStop => (st, stopEvents cfg st, true)

end Voxtral

namespace ModelCache

/-- The process-wide model cache of moonshine_handler.py lines 19-40 and
voxtral_handler.py lines 19-53 for one backend key: `cache` is the
cached handle (`_model_cache[model_name]` / `_llm_cache`), absent until
a construction succeeds; `attempts` counts how many times the
constructor has actually been run (observable effect of re-running the
expensive construction).  `ctor n` gives the outcome of the n-th
construction attempt. -/
structure CacheState (M : Type) where
  cache : Option M
  attempts : Nat
  deriving Repr

/-- Model of `get_model` / `get_vllm_model` under the lock: if the cache is
empty, run the constructor — on success store the handle, on failure
re-raise *without* storing anything (the `except` clause only logs and
`raise`s; the cache assignment on line 34 / 41 is never reached) — and
if the cache is populated, return the cached handle without running the
constructor. -/
def getModel {M : Type} (ctor : Nat → Except Unit M) (s : CacheState M) :
    Except Unit M × CacheState M :=
  match s.cache with
  | some m => (.ok m, s)
  | none =>
    match ctor s.attempts with
    | .ok m => (.ok m, ⟨some m, s.attempts + 1⟩)
    | .error e => (.error e, ⟨none, s.attempts + 1⟩)

/-- A constructor whose first attempt fails and whose later attempts
succeed (e.g. the environment problem was fixed, or a transient
download error). -/
def flakyCtor : Nat → Except Unit Nat :=
  fun n => if n = 0 then .error () else .ok 42

end ModelCache

/-- Whether an outbound event is an `AudioChunk`. -/
def OutEvent.isChunk : OutEvent → Bool
  | .audioChunk _ _ _ _ => true
  | _ => false

/-- Whether an outbound event is an `AudioStart`. -/
def OutEvent.isStart : OutEvent → Bool
  | .audioStart _ _ _ => true
  | _ => false

/-- Whether an outbound event is an `AudioStop`. -/
def OutEvent.isStop : OutEvent → Bool
  | .audioStop => true
  | _ => false

/-- Resampler stub that returns the samples unchanged. -/
def idResample : List ℚ → Nat → List ℚ := fun s _ => s

/-- ASR capability stub returning a fixed transcript. -/
def helloBackend : List ℚ → Except Unit String := fun _ => .ok "hello"

/-- ASR capability stub that always raises. -/
def raisingBackend : List ℚ → Except Unit String := fun _ => .error ()

/-- Moonshine handler with a working resampler and the fixed-transcript
backend. -/
def mHello : Moonshine.Config := ⟨true, idResample, helloBackend⟩

/-- Moonshine handler with librosa missing and the fixed-transcript
backend. -/
def mHelloNoLib : Moonshine.Config := ⟨false, idResample, helloBackend⟩

/-- Moonshine handler whose backend always raises. -/
def mRaise : Moonshine.Config := ⟨true, idResample, raisingBackend⟩

/-- Voxtral handler whose backend always raises. -/
def vRaise : Voxtral.Config := ⟨true, true, idResample, raisingBackend⟩

/-- Voxtral handler with librosa missing and the fixed-transcript
backend. -/
def vHelloNoLib : Voxtral.Config := ⟨true, false, idResample, helloBackend⟩

namespace Kokoro

/-- Byte conservation of one drain pass: emitted chunk bytes plus the
retained remainder account for the whole buffer. -/
lemma drainBuffer_conserve (buf : List Nat) :
    ((drainBuffer buf).1.map List.length).sum + (drainBuffer buf).2.length = buf.length := by
  induction buf using drainBuffer.induct with
  | case1 x h d ih =>
    have hd : d = (x.length / 2 ⊓ 1024) * 2 := rfl
    rw [hd] at ih
    rw [drainBuffer]
    simp only [dif_pos h, List.map_cons, List.sum_cons, List.length_take]
    simp only [List.length_drop] at ih
    omega
  | case2 x h =>
    rw [drainBuffer]
    simp [dif_neg h]

/-- After a drain pass at most one dangling byte remains. -/
lemma drainBuffer_rem (buf : List Nat) : (drainBuffer buf).2.length ≤ 1 := by
  induction buf using drainBuffer.induct with
  | case1 x h d ih =>
    have hd : d = (x.length / 2 ⊓ 1024) * 2 := rfl
    rw [hd] at ih
    rw [drainBuffer]
    simpa only [dif_pos h] using ih
  | case2 x h =>
    rw [drainBuffer]
    simp only [dif_neg h]
    omega

/-- Every chunk a drain pass emits holds at most 2048 bytes (1024
16-bit samples). -/
lemma drainBuffer_chunk_le (buf : List Nat) :
    ∀ c ∈ (drainBuffer buf).1, c.length ≤ 2048 := by
  induction buf using drainBuffer.induct with
  | case1 x h d ih =>
    have hd : d = (x.length / 2 ⊓ 1024) * 2 := rfl
    rw [hd] at ih
    rw [drainBuffer]
    simp only [dif_pos h, List.mem_cons]
    rintro c (rfl | hc)
    · simp only [List.length_take]
      omega
    · exact ih c hc
  | case2 x h =>
    rw [drainBuffer]
    simp [dif_neg h]

/-- A whole even buffer of at most 2048 bytes drains as a single
chunk: the drain loop forwards every complete sample at once and keeps
nothing back for later pushes. -/
lemma drainBuffer_single (buf : List Nat) (h2 : 2 ≤ buf.length)
    (hle : buf.length ≤ 2048) (hev : buf.length % 2 = 0) :
    drainBuffer buf = ([buf], []) := by
  rw [drainBuffer]
  have hd : min (buf.length / 2) 1024 * 2 = buf.length := by omega
  rw [dif_pos h2]
  simp only [hd, List.take_length, List.drop_length]
  rw [drainBuffer]
  simp

/-- Byte conservation of the fragment fold, generalized over the
accumulator. -/
lemma processFold_conserve (frags : List (List Nat)) :
    ∀ acc : List (List Nat) × List Nat,
    let r := frags.foldl
      (fun acc frag =>
        let step := drainBuffer (acc.2 ++ frag)
        (acc.1 ++ step.1, step.2)) acc
    (r.1.map List.length).sum + r.2.length
      = (acc.1.map List.length).sum + acc.2.length + (frags.map List.length).sum := by
  induction frags with
  | nil => intro acc; simp
  | cons f fs ih =>
    intro acc
    simp only [List.foldl_cons, List.map_cons, List.sum_cons]
    have h := ih (acc.1 ++ (drainBuffer (acc.2 ++ f)).1, (drainBuffer (acc.2 ++ f)).2)
    simp only [List.map_append, List.sum_append] at h
    have hc := drainBuffer_conserve (acc.2 ++ f)
    simp only [List.length_append] at hc
    omega

/-- The remainder carried by the fragment fold never exceeds one byte,
provided the incoming accumulator respects the same bound. -/
lemma processFold_rem (frags : List (List Nat)) :
    ∀ acc : List (List Nat) × List Nat, acc.2.length ≤ 1 →
    (frags.foldl
      (fun acc frag =>
        let step := drainBuffer (acc.2 ++ frag)
        (acc.1 ++ step.1, step.2)) acc).2.length ≤ 1 := by
  induction frags with
  | nil => intro acc h; simpa
  | cons f fs ih =>
    intro acc _
    simp only [List.foldl_cons]
    exact ih _ (drainBuffer_rem (acc.2 ++ f))

/-- Total bytes emitted by the push loop plus the retained remainder
equal the total bytes pushed, and the remainder is at most one byte. -/
lemma processFragments_conserve (frags : List (List Nat)) :
    ((processFragments frags).1.map List.length).sum + (processFragments frags).2.length
        = (frags.map List.length).sum
      ∧ (processFragments frags).2.length ≤ 1 := by
  constructor
  · simpa using processFold_conserve frags ([], [])
  · exact processFold_rem frags ([], []) (by simp)

/-- A 100-byte fragment drains as one 100-byte chunk. -/
lemma drain_repl_100 :
    drainBuffer (List.replicate 100 (0 : Nat)) = ([List.replicate 100 0], []) :=
  drainBuffer_single _ (by simp only [List.length_replicate]; norm_num)
    (by simp only [List.length_replicate]; norm_num)
    (by simp only [List.length_replicate])

/-- A 3000-byte fragment drains in the same push as one 2048-byte chunk
followed by one 952-byte chunk, retaining nothing. -/
lemma drain_repl_3000 :
    drainBuffer (List.replicate 3000 (0 : Nat))
      = ([List.replicate 2048 0, List.replicate 952 0], []) := by
  have h : 2 ≤ (List.replicate 3000 (0 : Nat)).length := by
    simp only [List.length_replicate]; norm_num
  rw [drainBuffer, dif_pos h]
  simp only [List.length_replicate, List.take_replicate, List.drop_replicate]
  norm_num
  rw [drainBuffer_single _ (by simp only [List.length_replicate]; norm_num)
    (by simp only [List.length_replicate]; norm_num)
    (by simp only [List.length_replicate])]
  exact ⟨rfl, rfl⟩

/-- A 5000-byte push drains as chunks of 2048, 2048 and 904 bytes,
retaining nothing. -/
lemma drain_repl_5000 :
    drainBuffer (List.replicate 5000 (0 : Nat))
      = ([List.replicate 2048 0, List.replicate 2048 0, List.replicate 904 0], []) := by
  have h : 2 ≤ (List.replicate 5000 (0 : Nat)).length := by
    simp only [List.length_replicate]; norm_num
  rw [drainBuffer, dif_pos h]
  simp only [List.length_replicate, List.take_replicate, List.drop_replicate]
  norm_num
  have h2 : 2 ≤ (List.replicate 2952 (0 : Nat)).length := by
    simp only [List.length_replicate]; norm_num
  rw [drainBuffer, dif_pos h2]
  simp only [List.length_replicate, List.take_replicate, List.drop_replicate]
  norm_num
  rw [drainBuffer_single _ (by simp only [List.length_replicate]; norm_num)
    (by simp only [List.length_replicate]; norm_num)
    (by simp only [List.length_replicate])]
  exact ⟨rfl, rfl⟩

/-- Pushing fragments of 3000 and 100 bytes emits chunks of 2048, 952
and 100 bytes with an empty carry-over. -/
lemma processFragments_3000_100 :
    processFragments [List.replicate 3000 (0 : Nat), List.replicate 100 0]
      = ([List.replicate 2048 0, List.replicate 952 0, List.replicate 100 0], []) := by
  simp only [processFragments, List.foldl_cons, List.foldl_nil, List.nil_append,
    drain_repl_3000, drain_repl_100, List.append_nil, List.cons_append]

end Kokoro

/-- An even-length buffer decodes to exactly half as many int16
samples. -/
lemma toInt16Samples_even (bytes : List Nat) (h : bytes.length % 2 = 0) :
    ∃ s, toInt16Samples bytes = .ok s ∧ s.length = bytes.length / 2 := by
  induction bytes using toInt16Samples.induct with
  | case1 => exact ⟨[], rfl, rfl⟩
  | case2 a => simp at h
  | case3 lo hi rest ih =>
    have hr : rest.length % 2 = 0 := by
      simp only [List.length_cons] at h; omega
    obtain ⟨s, hs, hlen⟩ := ih hr
    refine ⟨int16OfBytes lo hi :: s, ?_, ?_⟩
    · simp [toInt16Samples, hs, Except.map]
    · simp only [List.length_cons, hlen]
      omega

/-- An all-zero even-length buffer decodes to all-zero samples. -/
lemma toInt16Samples_zero (bytes : List Nat) (h : bytes.length % 2 = 0)
    (hz : ∀ b ∈ bytes, b = 0) :
    toInt16Samples bytes = .ok (List.replicate (bytes.length / 2) (0 : Int)) := by
  induction bytes using toInt16Samples.induct with
  | case1 => rfl
  | case2 a => simp at h
  | case3 lo hi rest ih =>
    have hlo : lo = 0 := hz lo (by simp)
    have hhi : hi = 0 := hz hi (by simp)
    have hr : rest.length % 2 = 0 := by
      simp only [List.length_cons] at h; omega
    have hzr : ∀ b ∈ rest, b = 0 := fun b hb => hz b (by simp [hb])
    subst hlo; subst hhi
    have hcount : (0 :: 0 :: rest : List Nat).length / 2 = rest.length / 2 + 1 := by
      simp only [List.length_cons]; omega
    rw [toInt16Samples, ih hr hzr, hcount]
    have h00 : int16OfBytes 0 0 = 0 := rfl
    simp [Except.map, h00, List.replicate_succ]

/-- The float conversion of all-zero samples is all zero. -/
lemma toFloatSamples_zero (n : Nat) :
    toFloatSamples (List.replicate n (0 : Int)) = List.replicate n (0 : ℚ) := by
  rw [toFloatSamples, List.map_replicate]
  congr 1
  norm_num

/-- Closed form of the row-mean recursion: when `c` divides the sample
count, row `i` of the downmix is the mean of samples
`i*c .. i*c + c - 1`. -/
lemma meanRows_eq (c : Nat) (hc : 0 < c) :
    ∀ (fuel : Nat) (l : List ℚ), l.length ≤ fuel → c ∣ l.length →
      meanRows c fuel l
        = (List.range (l.length / c)).map
            (fun i => ((l.drop (i * c)).take c).sum / (c : ℚ)) := by
  intro fuel
  induction fuel with
  | zero =>
    intro l hlen _
    have : l = [] := List.length_eq_zero.mp (by omega)
    subst this
    simp [meanRows]
  | succ fuel ih =>
    intro l hlen hdvd
    rcases l with _ | ⟨x, xs⟩
    · simp [meanRows]
    · have hlc : c ≤ (x :: xs).length := Nat.le_of_dvd (by simp) hdvd
      have hdl : ((x :: xs).drop c).length = (x :: xs).length - c := List.length_drop _ _
      have hdvd' : c ∣ ((x :: xs).drop c).length := by
        rw [hdl]; exact Nat.dvd_sub' hdvd dvd_rfl
      have hlen' : ((x :: xs).drop c).length ≤ fuel := by
        have hc' : 1 ≤ c := hc
        have h1 : (x :: xs).length ≤ fuel + 1 := hlen
        omega
      have hdiv : (x :: xs).length / c = ((x :: xs).drop c).length / c + 1 := by
        rw [hdl]
        exact Nat.div_eq_sub_div hc hlc
      rw [meanRows, ih _ hlen' hdvd', hdiv, List.range_succ_eq_map]
      simp only [List.map_cons, List.map_map, Nat.zero_mul, List.drop_zero]
      congr 1
      apply List.map_congr_left
      intro i _
      simp only [Function.comp_apply, List.drop_drop, Nat.succ_mul, Nat.add_comm]
      exact List.cons_ne_nil x xs

/-- When the channel count divides the sample count the downmix
succeeds and equals the per-row means. -/
lemma downmixQ_eq (samples : List ℚ) (c : Nat) (hc : 0 < c)
    (hdvd : c ∣ samples.length) :
    downmixQ samples c
      = .ok ((List.range (samples.length / c)).map
          (fun i => ((samples.drop (i * c)).take c).sum / (c : ℚ))) := by
  rw [downmixQ, if_pos (Nat.mod_eq_zero_of_dvd hdvd),
    meanRows_eq c hc samples.length samples le_rfl hdvd]

/-- With a backend that always raises, the Moonshine `AudioStop` branch
emits exactly one empty `Transcript` whatever the session state. -/
lemma moonshine_stop_raising (cfg : Moonshine.Config) (st : Moonshine.State)
    (hb : ∀ s, cfg.backend s = .error ()) :
    Moonshine.stopEvents cfg st = [OutEvent.transcript ""] := by
  rw [Moonshine.stopEvents]
  cases hp : Moonshine.pipeline cfg st with
  | ok s => simp [Moonshine.transcribeSync, hb s]
  | error e => rfl

/-- With a backend that always raises, the Voxtral `AudioStop` branch
emits exactly one empty `Transcript` whatever the session state. -/
lemma voxtral_stop_raising (cfg : Voxtral.Config) (st : Moonshine.State)
    (hb : ∀ s, cfg.backend s = .error ()) :
    Voxtral.stopEvents cfg st = [OutEvent.transcript ""] := by
  rw [Voxtral.stopEvents]
  by_cases hm : cfg.modelAvailable
  · rw [if_pos hm]
    cases hi : toInt16Samples st.buffer with
    | ok ints =>
      simp only [Voxtral.transcribeSync]
      by_cases hl : cfg.librosaAvailable
      · simp [hl, hb]
      · simp [hl]
    | error e => rfl
  · rw [if_neg hm]

/-- A chunk arriving while the buffer is nonempty changes neither the
recorded format nor the emptiness of the buffer. -/
lemma moonshine_chunk_keeps_format (cfg : Moonshine.Config) (st : Moonshine.State)
    (hb : st.buffer ≠ []) (a : List Nat) (r w c : Nat) :
    (Moonshine.handleEvent cfg st (.audioChunk a r w c)).1
      = { st with buffer := st.buffer ++ a } := by
  rw [Moonshine.handleEvent]
  simp [hb]

/-- Over any tail of chunk-only events, a session whose buffer is
already nonempty keeps its recorded format. -/
lemma moonshine_chunks_format_immutable (cfg : Moonshine.Config) :
    ∀ (es : List InEvent) (st : Moonshine.State), st.buffer ≠ [] →
      es.all InEvent.isChunk = true →
      ((Moonshine.runSession cfg st es).1.rate = st.rate
        ∧ (Moonshine.runSession cfg st es).1.width = st.width
        ∧ (Moonshine.runSession cfg st es).1.channels = st.channels) := by
  intro es
  induction es with
  | nil => intro st hb _; exact ⟨rfl, rfl, rfl⟩
  | cons e es ih =>
    intro st hb hall
    simp only [List.all_cons, Bool.and_eq_true] at hall
    cases e with
    | audioChunk a r w c =>
      rw [Moonshine.runSession]
      have hstep := moonshine_chunk_keeps_format cfg st hb a r w c
      have hb' : ({ st with buffer := st.buffer ++ a } : Moonshine.State).buffer ≠ [] := by
        simp [hb]
      have := ih { st with buffer := st.buffer ++ a } hb' hall.2
      simpa [hstep] using this
    | describe => simp [InEvent.isChunk] at hall
    | transcribeRequest => simp [InEvent.isChunk] at hall
    | audioStop => simp [InEvent.isChunk] at hall

/-- A single even fragment of at most 2048 bytes followed by a
mid-stream exception yields start, one chunk, a second start, stop. -/
lemma synthesizeEvents_single_raise (frag : List Nat) (h2 : 2 ≤ frag.length)
    (hle : frag.length ≤ 2048) (hev : frag.length % 2 = 0) :
    Kokoro.synthesizeEvents [frag] true
      = [OutEvent.audioStart 24000 2 1, OutEvent.audioChunk frag 24000 2 1,
         OutEvent.audioStart 24000 2 1, OutEvent.audioStop] := by
  rw [Kokoro.synthesizeEvents]
  simp only [Kokoro.processFragments, List.foldl_cons, List.foldl_nil, List.nil_append,
    Kokoro.drainBuffer_single frag h2 hle hev, List.append_nil]
  simp

/-- The two-fragment stub scenario emits start, three chunks (2048, 952
and 100 bytes), stop. -/
lemma synthesizeEvents_3000_100 :
    Kokoro.synthesizeEvents [List.replicate 3000 0, List.replicate 100 0] false
      = [OutEvent.audioStart 24000 2 1,
         OutEvent.audioChunk (List.replicate 2048 0) 24000 2 1,
         OutEvent.audioChunk (List.replicate 952 0) 24000 2 1,
         OutEvent.audioChunk (List.replicate 100 0) 24000 2 1,
         OutEvent.audioStop] := by
  rw [Kokoro.synthesizeEvents]
  simp only [Kokoro.processFragments_3000_100, Kokoro.flushTail, List.length_nil]
  norm_num

/-- A remainder of at most one byte never reaches the final-flush
emit. -/
lemma flushTail_of_le_one (buf : List Nat) (h : buf.length ≤ 1) :
    Kokoro.flushTail buf = [] := by
  rw [Kokoro.flushTail, if_neg (by omega)]

/-- C1 (corrected).  On a backend exception after one fragment the
Kokoro handler emits the already-sent `AudioStart` and chunk, then a
*second* `AudioStart` followed by the closing `AudioStop` (failure path
lines 148-157 write a fresh start/stop pair); `AudioStop` is still
emitted exactly once, last, and no raw protocol error ever appears. -/
theorem claim1_tts_failure_event_sequence (frag : List Nat) (h2 : 2 ≤ frag.length)
    (hle : frag.length ≤ 2048) (hev : frag.length % 2 = 0) :
    Kokoro.synthesizeEvents [frag] true
      = [OutEvent.audioStart 24000 2 1, OutEvent.audioChunk frag 24000 2 1,
         OutEvent.audioStart 24000 2 1, OutEvent.audioStop] :=
  synthesizeEvents_single_raise frag h2 hle hev

/-- Witness for C1 at a concrete 100-byte fragment. -/
theorem claim1_tts_failure_event_sequence_witness :
    (2 ≤ (List.replicate 100 (0 : Nat)).length
      ∧ (List.replicate 100 (0 : Nat)).length ≤ 2048
      ∧ (List.replicate 100 (0 : Nat)).length % 2 = 0)
    ∧ Kokoro.synthesizeEvents [List.replicate 100 (0 : Nat)] true
      = [OutEvent.audioStart 24000 2 1,
         OutEvent.audioChunk (List.replicate 100 0) 24000 2 1,
         OutEvent.audioStart 24000 2 1, OutEvent.audioStop] :=
  ⟨⟨by simp only [List.length_replicate]; norm_num,
    by simp only [List.length_replicate]; norm_num,
    by simp only [List.length_replicate]⟩,
   claim1_tts_failure_event_sequence (List.replicate 100 0)
     (by simp only [List.length_replicate]; norm_num)
     (by simp only [List.length_replicate]; norm_num)
     (by simp only [List.length_replicate])⟩

/-- C1 counterexample: with the stub raising after one 2048-byte
fragment the outbound sequence contains a second `AudioStart`, so it is
not the claimed start–chunk–stop sequence. -/
theorem claim1_counterexample :
    Kokoro.synthesizeEvents [List.replicate 2048 (0 : Nat)] true
      = [OutEvent.audioStart 24000 2 1,
         OutEvent.audioChunk (List.replicate 2048 0) 24000 2 1,
         OutEvent.audioStart 24000 2 1, OutEvent.audioStop]
    ∧ ([OutEvent.audioStart 24000 2 1,
        OutEvent.audioChunk (List.replicate 2048 0) 24000 2 1,
        OutEvent.audioStart 24000 2 1, OutEvent.audioStop] : List OutEvent)
      ≠ [OutEvent.audioStart 24000 2 1,
         OutEvent.audioChunk (List.replicate 2048 0) 24000 2 1,
         OutEvent.audioStop] := by
  refine ⟨synthesizeEvents_single_raise _ ?_ ?_ ?_, ?_⟩
  · simp only [List.length_replicate]; norm_num
  · simp only [List.length_replicate]; norm_num
  · simp only [List.length_replicate]
  · intro h
    have := congrArg List.length h
    simp only [List.length_cons, List.length_nil] at this
    omega

/-- C3 (corrected).  For backend fragments of 3000 and 100 bytes the
handler emits one `AudioStart` strictly first, then *three* `AudioChunk`
events of 2048, 952 and 100 bytes (the drain loop forwards every
complete sample per fragment instead of accumulating 2048-byte chunks
across fragments), whose payload lengths sum to 3100 with every chunk
at most 2048 bytes, then one `AudioStop` strictly last. -/
theorem claim3_tts_streaming_scenario :
    Kokoro.synthesizeEvents [List.replicate 3000 0, List.replicate 100 0] false
      = [OutEvent.audioStart 24000 2 1,
         OutEvent.audioChunk (List.replicate 2048 0) 24000 2 1,
         OutEvent.audioChunk (List.replicate 952 0) 24000 2 1,
         OutEvent.audioChunk (List.replicate 100 0) 24000 2 1,
         OutEvent.audioStop]
    ∧ (2048 : Nat) + 952 + 100 = 3100
    ∧ (2048 : Nat) ≤ 2048 ∧ (952 : Nat) ≤ 2048 ∧ (100 : Nat) ≤ 2048 := by
  exact ⟨synthesizeEvents_3000_100, by norm_num, by norm_num, by norm_num, by norm_num⟩

/-- C3 counterexample: the scenario emits three `AudioChunk` events,
not the claimed `ceil(3100/2048) = 2`. -/
theorem claim3_counterexample :
    ((Kokoro.synthesizeEvents [List.replicate 3000 0, List.replicate 100 0] false).filter
        OutEvent.isChunk).length = 3
    ∧ ((Kokoro.synthesizeEvents [List.replicate 3000 0, List.replicate 100 0] false).filter
        OutEvent.isChunk).length ≠ 2 := by
  rw [synthesizeEvents_3000_100]
  exact ⟨by decide, by decide⟩

/-- C4 (corrected).  A 5000-byte push is drained immediately into
chunks of 2048, 2048 and 904 bytes with nothing retained (the loop
keeps emitting while at least one whole sample remains, so at most one
dangling byte ever carries over, and the final flush then has nothing
to emit); across any sequence of pushes plus the final flush, total
bytes emitted equal total bytes pushed minus at most one orphaned
trailing byte. -/
theorem claim4_reframer_conservation :
    Kokoro.drainBuffer (List.replicate 5000 0)
      = ([List.replicate 2048 0, List.replicate 2048 0, List.replicate 904 0], [])
    ∧ ∀ frags : List (List Nat),
        ((Kokoro.processFragments frags).1.map List.length).sum
            + (Kokoro.processFragments frags).2.length
          = (frags.map List.length).sum
        ∧ (Kokoro.processFragments frags).2.length ≤ 1
        ∧ Kokoro.flushTail (Kokoro.processFragments frags).2 = [] := by
  refine ⟨Kokoro.drain_repl_5000, fun frags => ?_⟩
  obtain ⟨hsum, hrem⟩ := Kokoro.processFragments_conserve frags
  exact ⟨hsum, hrem, flushTail_of_le_one _ hrem⟩

/-- C4 counterexample: pushing 5000 bytes emits three chunks at push
time and retains nothing, not two chunks with a 904-byte remainder
held for the flush. -/
theorem claim4_counterexample :
    (Kokoro.drainBuffer (List.replicate 5000 0)).1.length = 3
    ∧ (Kokoro.drainBuffer (List.replicate 5000 0)).2.length = 0 := by
  rw [Kokoro.drain_repl_5000]
  exact ⟨rfl, rfl⟩

/-- C10 (confirmed).  The Kokoro handler sends the server-configured
voice and speed to the backend; the request's own voice and speed
fields never influence the API payload or the outbound event
sequence. -/
theorem claim10_request_voice_speed_ignored (cfg : Kokoro.Config)
    (backend : Kokoro.Payload → List (List Nat) × Bool)
    (t v₁ v₂ : String) (s₁ s₂ : ℚ) :
    Kokoro.handleSynthesize cfg backend ⟨t, v₁, s₁⟩
        = Kokoro.handleSynthesize cfg backend ⟨t, v₂, s₂⟩
    ∧ Kokoro.buildPayload cfg ⟨t, v₁, s₁⟩ = Kokoro.buildPayload cfg ⟨t, v₂, s₂⟩
    ∧ (Kokoro.buildPayload cfg ⟨t, v₁, s₁⟩).voice = cfg.voice
    ∧ (Kokoro.buildPayload cfg ⟨t, v₁, s₁⟩).speed = cfg.speed :=
  ⟨rfl, rfl, rfl, rfl⟩

/-- C2 (confirmed).  When the transcribe backend raises during
`AudioStop` handling, both STT handlers emit exactly one empty
`Transcript`, keep the connection open (the coroutine still returns
`True`), and answer the next `TranscribeRequest` with the normal
buffer/rate reset. -/
theorem claim2_stt_failure_recovery (cfg : Moonshine.Config) (vcfg : Voxtral.Config)
    (st vst : Moonshine.State)
    (hb : ∀ s, cfg.backend s = Except.error ())
    (hvb : ∀ s, vcfg.backend s = Except.error ()) :
    Moonshine.handleEvent cfg st .audioStop = (st, [OutEvent.transcript ""], true)
    ∧ Voxtral.handleEvent vcfg vst .audioStop = (vst, [OutEvent.transcript ""], true)
    ∧ Moonshine.handleEvent cfg st .transcribeRequest
        = ({ st with buffer := [], rate := 16000 }, [], true)
    ∧ Voxtral.handleEvent vcfg vst .transcribeRequest
        = ({ vst with buffer := [], rate := 16000 }, [], true) := by
  refine ⟨?_, ?_, rfl, rfl⟩
  · rw [Moonshine.handleEvent, moonshine_stop_raising cfg st hb]
  · rw [Voxtral.handleEvent, voxtral_stop_raising vcfg vst hvb]

/-- Witness for C2 with always-raising backends on fresh sessions. -/
theorem claim2_stt_failure_recovery_witness :
    (∀ s, mRaise.backend s = Except.error ())
    ∧ Moonshine.handleEvent mRaise ⟨[0, 0], 16000, 2, 1⟩ .audioStop
        = (⟨[0, 0], 16000, 2, 1⟩, [OutEvent.transcript ""], true)
    ∧ Voxtral.handleEvent vRaise ⟨[0, 0], 16000, 2, 1⟩ .audioStop
        = (⟨[0, 0], 16000, 2, 1⟩, [OutEvent.transcript ""], true)
    ∧ Moonshine.handleEvent mRaise ⟨[0, 0], 16000, 2, 1⟩ .transcribeRequest
        = (⟨[], 16000, 2, 1⟩, [], true) := by
  have h := claim2_stt_failure_recovery mRaise vRaise ⟨[0, 0], 16000, 2, 1⟩
    ⟨[0, 0], 16000, 2, 1⟩ (fun _ => rfl) (fun _ => rfl)
  exact ⟨fun _ => rfl, h.1, h.2.1, h.2.2.1⟩

/-- C5 (corrected).  For an even byte count `L` the decode yields
exactly `L/2` int16 samples, and an all-zero buffer converts to the
all-zero float sequence; but an odd trailing byte is *not* dropped —
`np.frombuffer` raises and the session falls back to the error path. -/
theorem claim5_finalize_sample_count (bytes : List Nat) (h : bytes.length % 2 = 0) :
    (∃ s, toInt16Samples bytes = .ok s ∧ s.length = bytes.length / 2)
    ∧ ((∀ b ∈ bytes, b = 0) →
        toInt16Samples bytes = .ok (List.replicate (bytes.length / 2) (0 : Int))
        ∧ toFloatSamples (List.replicate (bytes.length / 2) (0 : Int))
            = List.replicate (bytes.length / 2) (0 : ℚ)) :=
  ⟨toInt16Samples_even bytes h,
   fun hz => ⟨toInt16Samples_zero bytes h hz, toFloatSamples_zero _⟩⟩

/-- Witness for C5 on the two-byte all-zero buffer. -/
theorem claim5_finalize_sample_count_witness :
    (([0, 0] : List Nat).length % 2 = 0)
    ∧ (∃ s, toInt16Samples [0, 0] = .ok s ∧ s.length = ([0, 0] : List Nat).length / 2)
    ∧ toInt16Samples [0, 0]
        = .ok (List.replicate (([0, 0] : List Nat).length / 2) (0 : Int)) := by
  refine ⟨by decide, (claim5_finalize_sample_count [0, 0] (by decide)).1, ?_⟩
  exact ((claim5_finalize_sample_count [0, 0] (by decide)).2 (by decide)).1

/-- C5 counterexample: a dangling odd byte makes the decode raise
(recovered as an empty transcript) rather than being dropped, even
though the backend would have transcribed successfully. -/
theorem claim5_counterexample :
    toInt16Samples [0] = Except.error ()
    ∧ Moonshine.handleEvent mHello ⟨[0], 16000, 2, 1⟩ .audioStop
        = (⟨[0], 16000, 2, 1⟩, [OutEvent.transcript ""], true)
    ∧ mHello.backend [] = Except.ok "hello" :=
  ⟨rfl, rfl, rfl⟩

/-- C6 (corrected).  Once a chunk has actually filled the buffer, the
recorded format is immutable for the rest of the session — later
chunks, even with different declared formats, are appended without
touching it (and without any rejection).  The caveat forced by the
counterexample: the format is read from the first chunk *that arrives
while the buffer is empty*, so empty-payload leading chunks let a later
chunk's format win. -/
theorem claim6_format_immutable (cfg : Moonshine.Config) (st : Moonshine.State)
    (hbuf : st.buffer = []) (a : List Nat) (ha : a ≠ []) (r w c : Nat)
    (rest : List InEvent) (hrest : rest.all InEvent.isChunk = true)
    (vcfg : Voxtral.Config) (vst : Moonshine.State) (hv : vst.buffer ≠ [])
    (a' : List Nat) (r' w' c' : Nat) :
    ((Moonshine.runSession cfg st (.audioChunk a r w c :: rest)).1.rate = r
      ∧ (Moonshine.runSession cfg st (.audioChunk a r w c :: rest)).1.width = w
      ∧ (Moonshine.runSession cfg st (.audioChunk a r w c :: rest)).1.channels = c)
    ∧ ((Voxtral.handleEvent vcfg vst (.audioChunk a' r' w' c')).1.rate = vst.rate
      ∧ (Voxtral.handleEvent vcfg vst (.audioChunk a' r' w' c')).1.width = vst.width
      ∧ (Voxtral.handleEvent vcfg vst (.audioChunk a' r' w' c')).1.channels = vst.channels) := by
  constructor
  · have hstep : (Moonshine.handleEvent cfg st (.audioChunk a r w c)).1
        = { st with rate := r, width := w, channels := c, buffer := st.buffer ++ a } := by
      rw [Moonshine.handleEvent]
      simp [hbuf]
    have hinv := moonshine_chunks_format_immutable cfg rest
      { st with rate := r, width := w, channels := c, buffer := st.buffer ++ a }
      (by simp [hbuf, ha]) hrest
    rw [Moonshine.runSession]
    simpa [hstep] using hinv
  · simp only [Voxtral.handleEvent, if_neg hv]
    exact ⟨trivial, trivial, trivial⟩

/-- Witness for C6: a nonempty first chunk fixes the format against a
later differently-formatted chunk. -/
theorem claim6_format_immutable_witness :
    (Moonshine.initState.buffer = [] ∧ ([7] : List Nat) ≠ []
      ∧ ([InEvent.audioChunk [9] 8000 1 2].all InEvent.isChunk = true))
    ∧ ((Moonshine.runSession mHello Moonshine.initState
          [.audioChunk [7] 48000 2 1, .audioChunk [9] 8000 1 2]).1.rate = 48000
      ∧ (Moonshine.runSession mHello Moonshine.initState
          [.audioChunk [7] 48000 2 1, .audioChunk [9] 8000 1 2]).1.width = 2
      ∧ (Moonshine.runSession mHello Moonshine.initState
          [.audioChunk [7] 48000 2 1, .audioChunk [9] 8000 1 2]).1.channels = 1) := by
  have h := claim6_format_immutable mHello Moonshine.initState rfl [7] (by decide)
    48000 2 1 [.audioChunk [9] 8000 1 2] (by decide)
    vRaise ⟨[1], 16000, 2, 1⟩ (by decide) [] 1 1 1
  exact ⟨⟨rfl, by decide, by decide⟩, h.1⟩

/-- C6 counterexample: an empty-payload first chunk declaring 48000 Hz
leaves the buffer empty, so the next chunk's differing format (8000 Hz,
width 1, 2 channels) replaces the recorded one instead of losing to
it. -/
theorem claim6_counterexample :
    ((Moonshine.handleEvent mHello
        (Moonshine.handleEvent mHello Moonshine.initState (.audioChunk [] 48000 2 1)).1
        (.audioChunk [7] 8000 1 2)).1.rate = 8000)
    ∧ (48000 : Nat) ≠ 8000 :=
  ⟨rfl, by norm_num⟩

/-- When librosa is missing, the whole Voxtral transcription body
raises at its unconditional `import librosa` and is caught, so the stop
branch emits only an empty `Transcript`. -/
lemma voxtral_stop_no_librosa (cfg : Voxtral.Config) (st : Moonshine.State)
    (hl : cfg.librosaAvailable = false) :
    Voxtral.stopEvents cfg st = [OutEvent.transcript ""] := by
  rw [Voxtral.stopEvents]
  by_cases hm : cfg.modelAvailable
  · rw [if_pos hm]
    cases hi : toInt16Samples st.buffer with
    | ok ints => simp [Voxtral.transcribeSync, hl]
    | error e => rfl
  · rw [if_neg hm]

/-- C7 (corrected).  In the Moonshine handler resampling is attempted
iff the recorded rate differs from 16000, and a missing resampler is a
no-op that leaves the samples unchanged and still hands them to the
backend, whose transcript the session emits.  The Voxtral handler
diverges: its `import librosa` sits inside the transcription body, so a
missing resampler aborts the whole attempt and the session completes
with an empty `Transcript` instead of the unchanged-samples
transcript. -/
theorem claim7_resampling_policy (cfg : Moonshine.Config) (st : Moonshine.State)
    (vcfg : Voxtral.Config) (vst : Moonshine.State) :
    (st.rate = 16000 → Moonshine.pipeline cfg st = Moonshine.monoStage st)
    ∧ (st.rate ≠ 16000 → cfg.librosaAvailable = true →
        Moonshine.pipeline cfg st
          = (Moonshine.monoStage st).map (fun s => cfg.resampleFn s st.rate))
    ∧ (st.rate ≠ 16000 → cfg.librosaAvailable = false →
        Moonshine.pipeline cfg st = Moonshine.monoStage st
        ∧ ∀ s, Moonshine.monoStage st = .ok s →
            Moonshine.handleEvent cfg st .audioStop
              = (st, [OutEvent.transcript (Moonshine.transcribeSync cfg s)], true))
    ∧ (vcfg.librosaAvailable = false →
        Voxtral.handleEvent vcfg vst .audioStop = (vst, [OutEvent.transcript ""], true)) := by
  refine ⟨?_, ?_, ?_, ?_⟩
  · intro h16
    have hid : Moonshine.resampleStep cfg st.rate = fun s => s := by
      funext s
      rw [Moonshine.resampleStep, if_neg (by simp [h16])]
    rw [Moonshine.pipeline, hid]
    cases Moonshine.monoStage st <;> rfl
  · intro hne hlib
    have hfn : Moonshine.resampleStep cfg st.rate = fun s => cfg.resampleFn s st.rate := by
      funext s
      rw [Moonshine.resampleStep, if_pos hne, if_pos hlib]
    rw [Moonshine.pipeline, hfn]
  · intro hne hlib
    have hid : Moonshine.resampleStep cfg st.rate = fun s => s := by
      funext s
      rw [Moonshine.resampleStep, if_pos hne, if_neg (by simp [hlib])]
    have hpipe : Moonshine.pipeline cfg st = Moonshine.monoStage st := by
      rw [Moonshine.pipeline, hid]
      cases Moonshine.monoStage st <;> rfl
    refine ⟨hpipe, fun s hs => ?_⟩
    rw [Moonshine.handleEvent, Moonshine.stopEvents, hpipe, hs]
  · intro hl
    rw [Voxtral.handleEvent, voxtral_stop_no_librosa vcfg vst hl]

/-- Witness for C7: a 16000 Hz session resamples nothing; a 24000 Hz
Moonshine session with librosa missing hands the unchanged samples to
the backend and emits its transcript; the same situation in the Voxtral
handler yields an empty transcript. -/
theorem claim7_resampling_policy_witness :
    Moonshine.pipeline mHello Moonshine.initState = Moonshine.monoStage Moonshine.initState
    ∧ Moonshine.pipeline mHelloNoLib ⟨[0, 0], 24000, 2, 1⟩
        = Moonshine.monoStage ⟨[0, 0], 24000, 2, 1⟩
    ∧ Moonshine.handleEvent mHelloNoLib ⟨[0, 0], 24000, 2, 1⟩ .audioStop
        = (⟨[0, 0], 24000, 2, 1⟩, [OutEvent.transcript "hello"], true)
    ∧ Voxtral.handleEvent vHelloNoLib ⟨[0, 0], 24000, 2, 1⟩ .audioStop
        = (⟨[0, 0], 24000, 2, 1⟩, [OutEvent.transcript ""], true) := by
  have h24 := claim7_resampling_policy mHelloNoLib ⟨[0, 0], 24000, 2, 1⟩
    vHelloNoLib ⟨[0, 0], 24000, 2, 1⟩
  have hmono : Moonshine.monoStage ⟨[0, 0], 24000, 2, 1⟩ = .ok [0] := by
    norm_num [Moonshine.monoStage, toInt16Samples, toFloatSamples, int16OfBytes,
      Except.map, bind, Except.bind, pure, Except.pure]
  refine ⟨(claim7_resampling_policy mHello Moonshine.initState vHelloNoLib
      Moonshine.initState).1 rfl,
    (h24.2.2.1 (by norm_num) rfl).1, ?_, h24.2.2.2 rfl⟩
  have := (h24.2.2.1 (by norm_num) rfl).2 [0] hmono
  exact this

/-- C7 counterexample: with librosa missing the Voxtral session emits
`Transcript("")` although the backend would have transcribed the
unchanged samples as `"hello"` — the samples are not passed through
unchanged. -/
theorem claim7_counterexample :
    Voxtral.handleEvent vHelloNoLib ⟨[0, 0], 24000, 2, 1⟩ .audioStop
      = (⟨[0, 0], 24000, 2, 1⟩, [OutEvent.transcript ""], true)
    ∧ vHelloNoLib.backend [0] = Except.ok "hello"
    ∧ OutEvent.transcript "" ≠ OutEvent.transcript "hello" := by
  refine ⟨rfl, rfl, by decide⟩

/-- C8 (corrected).  A failed construction is *not* terminal: nothing
is stored in the cache, so the next acquisition runs the constructor
again (and may succeed); only a successful construction is cached,
after which acquisitions return the cached handle without constructing
again. -/
theorem claim8_init_failure_retried {M : Type} (ctor : Nat → Except Unit M)
    (s : ModelCache.CacheState M) (hnone : s.cache = none)
    (hfail : ctor s.attempts = .error ()) :
    ModelCache.getModel ctor s = (.error (), ⟨none, s.attempts + 1⟩)
    ∧ (ModelCache.getModel ctor (ModelCache.getModel ctor s).2).2.attempts = s.attempts + 2
    ∧ (∀ m, ctor (s.attempts + 1) = .ok m →
        ModelCache.getModel ctor (ModelCache.getModel ctor s).2
          = (.ok m, ⟨some m, s.attempts + 2⟩))
    ∧ (∀ (m : M) (k : Nat),
        ModelCache.getModel ctor ⟨some m, k⟩ = (.ok m, ⟨some m, k⟩)) := by
  obtain ⟨cache, attempts⟩ := s
  cases hnone
  have h1 : ModelCache.getModel ctor ⟨none, attempts⟩ = (.error (), ⟨none, attempts + 1⟩) := by
    simp [ModelCache.getModel, hfail]
  refine ⟨h1, ?_, ?_, fun m k => rfl⟩
  · rw [h1]
    cases h2 : ctor (attempts + 1) <;> simp [ModelCache.getModel, h2]
  · intro m hm
    rw [h1]
    simp [ModelCache.getModel, hm]

/-- Witness for C8 with the flaky constructor: first acquisition fails,
second re-runs construction and succeeds. -/
theorem claim8_init_failure_retried_witness :
    ((⟨none, 0⟩ : ModelCache.CacheState Nat).cache = none
      ∧ ModelCache.flakyCtor 0 = .error ())
    ∧ ModelCache.getModel ModelCache.flakyCtor ⟨none, 0⟩ = (.error (), ⟨none, 1⟩)
    ∧ ModelCache.getModel ModelCache.flakyCtor
        (ModelCache.getModel ModelCache.flakyCtor ⟨none, 0⟩).2 = (.ok 42, ⟨some 42, 2⟩) := by
  have h := claim8_init_failure_retried ModelCache.flakyCtor ⟨none, 0⟩ rfl rfl
  exact ⟨⟨rfl, rfl⟩, h.1, h.2.2.1 42 rfl⟩

/-- C8 counterexample: after the first construction fails, the second
acquisition does not replay the failure — it re-runs the constructor
(attempt counter reaches 2) and obtains a handle. -/
theorem claim8_counterexample :
    (ModelCache.getModel ModelCache.flakyCtor ⟨none, 0⟩).1 = Except.error ()
    ∧ (ModelCache.getModel ModelCache.flakyCtor
        (ModelCache.getModel ModelCache.flakyCtor ⟨none, 0⟩).2).1 = Except.ok 42
    ∧ (ModelCache.getModel ModelCache.flakyCtor
        (ModelCache.getModel ModelCache.flakyCtor ⟨none, 0⟩).2).2.attempts = 2 :=
  ⟨rfl, rfl, rfl⟩

/-- C9 (corrected).  When the channel count `c > 1` *divides* the total
sample count, the downmix yields `total/c` mono samples, each the exact
average of its `c` interleaved channel samples, and the downmix is
applied to the float samples before the resampling step; when `c` does
not divide the total, numpy's reshape raises instead of producing
`floor(total/c)` samples and the session recovers with an empty
transcript. -/
theorem claim9_downmix_average (samples : List ℚ) (c : Nat) (hc : 1 < c)
    (hdvd : c ∣ samples.length) :
    downmixQ samples c
      = .ok ((List.range (samples.length / c)).map
          (fun i => ((samples.drop (i * c)).take c).sum / (c : ℚ)))
    ∧ ((List.range (samples.length / c)).map
          (fun i => ((samples.drop (i * c)).take c).sum / (c : ℚ))).length
        = samples.length / c
    ∧ downmixQ [100, 200, 300, 400] 2 = .ok [150, 350]
    ∧ (∀ (cfg : Moonshine.Config) (st : Moonshine.State),
        Moonshine.pipeline cfg st
          = (Moonshine.monoStage st).map (Moonshine.resampleStep cfg st.rate)) := by
  refine ⟨downmixQ_eq samples c (by omega) hdvd, ?_, ?_, fun cfg st => rfl⟩
  · simp
  · norm_num [downmixQ, meanRows]

/-- Witness for C9 on the spec's stereo example. -/
theorem claim9_downmix_average_witness :
    ((1 : Nat) < 2 ∧ 2 ∣ ([100, 200, 300, 400] : List ℚ).length)
    ∧ downmixQ [100, 200, 300, 400] 2
        = .ok ((List.range (([100, 200, 300, 400] : List ℚ).length / 2)).map
            (fun i => ((([100, 200, 300, 400] : List ℚ).drop (i * 2)).take 2).sum / (2 : ℚ)))
    ∧ downmixQ [100, 200, 300, 400] 2 = .ok [150, 350] := by
  have h := claim9_downmix_average [100, 200, 300, 400] 2 (by norm_num) (by norm_num)
  exact ⟨⟨by norm_num, by norm_num⟩, h.1, h.2.2.1⟩

/-- C9 counterexample: three interleaved samples with two declared
channels make the reshape raise — the session emits an empty transcript
instead of `floor(3/2) = 1` mono sample. -/
theorem claim9_counterexample :
    downmixQ [1, 2, 3] 2 = Except.error ()
    ∧ Moonshine.stopEvents mHello ⟨[1, 0, 2, 0, 3, 0], 16000, 2, 2⟩
        = [OutEvent.transcript ""]
    ∧ (3 : Nat) / 2 = 1 :=
  ⟨rfl, rfl, rfl⟩
